import Mathlib

/-!
Shallow embedding of the axp20x-rs PMIC driver (src/lib.rs) and proofs of the
specification claims about it.

Modelling conventions:
* Machine integers (`u8`, `u64`) are `Nat` with explicit masking / `% 2^w`
  where the Rust semantics truncates.  Rust bitwise `!x` on `uN` is modelled
  as `(2^N - 1) ^^^ x`.
* The I2C bus is modelled as a total register file `regs : Nat → Nat`
  (register address → byte).  Transport errors are not modelled (every bus
  transaction succeeds); the driver-level error type keeps its
  `Uninitialized` variant, which is the one the claims are about.
* Every operation additionally returns the list of bus transactions (`Tx`)
  it issued, in order, so frame/effect claims can be stated.
* The busy-wait loop in `set_power_output` reads the same register
  repeatedly; the successive values the hardware would return are supplied
  as a list `reads : List Nat`.  Exhausting the list without a non-zero
  value models the loop still spinning (`SpoResult.pending`).
-/

namespace Axp

/-- One bus transaction: a one-byte register read (with the value returned by
the hardware) or a one-byte register write. -/
inductive Tx
  | read (reg : Nat) (val : Nat)
  | write (reg : Nat) (val : Nat)
deriving DecidableEq, Repr

/-- Address of a transaction. -/
def Tx.addr : Tx → Nat
  | .read a _ => a
  | .write a _ => a

/-- Values of the write transactions a trace issues to address `a`, in order. -/
def writesTo (tr : List Tx) (a : Nat) : List Nat :=
  tr.filterMap fun tx => match tx with
    | .write r v => if r = a then some v else none
    | .read _ _ => none

/-- Update a register file at one address. -/
def setReg (regs : Nat → Nat) (a v : Nat) : Nat → Nat :=
  fun x => if x = a then v else regs x

/-- AXP20x registers (enum `Register` in the source, with its `u8` values). -/
inductive Register
  | PowerInputStatus
  | PowerWorkingModeChargeStatus
  | IcType
  | Ldo234Dc23Ctl
  | Charge1
  | EnabledIrq1
  | EnabledIrq2
  | EnabledIrq3
  | EnabledIrq4
  | EnabledIrq5
  | StatusIrq1
  | StatusIrq2
  | StatusIrq3
  | StatusIrq4
  | StatusIrq5
  | BatteryAverageVoltageHigh8b
  | BatteryAverageVoltageLow4b
  | BatteryPercentage
deriving DecidableEq, Repr

/-- The `u8` discriminant of each register (`#[repr(u8)]` values in the source). -/
def Register.addr : Register → Nat
  | .PowerInputStatus => 0x00
  | .PowerWorkingModeChargeStatus => 0x01
  | .IcType => 0x03
  | .Ldo234Dc23Ctl => 0x12
  | .Charge1 => 0x33
  | .EnabledIrq1 => 0x40
  | .EnabledIrq2 => 0x41
  | .EnabledIrq3 => 0x42
  | .EnabledIrq4 => 0x43
  | .EnabledIrq5 => 0x45
  | .StatusIrq1 => 0x48
  | .StatusIrq2 => 0x49
  | .StatusIrq3 => 0x4A
  | .StatusIrq4 => 0x4B
  | .StatusIrq5 => 0x4C
  | .BatteryAverageVoltageHigh8b => 0x78
  | .BatteryAverageVoltageLow4b => 0x79
  | .BatteryPercentage => 0xB9

/-- AXP20x chip ids (enum `ChipId`). -/
inductive ChipId
  | Unknown
  | Axp202
  | Axp192
  | Axp173
deriving DecidableEq, Repr

/-- Decoding of the raw identity byte (`num_enum` `FromPrimitive` with
`Unknown` as `#[default]`): 0x41, 0x03, 0xAD hit their variants, everything
else falls to `Unknown`. -/
def ChipId.fromRaw (b : Nat) : ChipId :=
  if b = 0x41 then .Axp202
  else if b = 0x03 then .Axp192
  else if b = 0xAD then .Axp173
  else .Unknown

/-- Device lifecycle state (enum `State`). -/
inductive State
  | Uninitialized
  | Initialized (chip : ChipId)
deriving DecidableEq, Repr

/-- Driver error type (enum `Error<E>`).  The bus is modelled as total, so the
`I2cError` variant never arises in the model, but it is kept so the type
matches the source. -/
inductive AxpError
  | Uninitialized
  | I2cError
deriving DecidableEq, Repr

/-- Power state for the different modules (enum `PowerState`). -/
inductive PowerState
  | On
  | Off
deriving DecidableEq, Repr

/-- Rust bitwise `!` on `u64`. -/
def compl64 (x : Nat) : Nat := 0xFFFFFFFFFFFFFFFF ^^^ x

/-- Rust bitwise `!` on `u8`. -/
def compl8 (x : Nat) : Nat := 0xFF ^^^ x

namespace Power

/-- Bitmask constant `Power::Exten`. -/
def Exten : Nat := 1 <<< 0

/-- Bitmask constant `Power::DcDc3` (the AXP202 quirk bit). -/
def DcDc3 : Nat := 1 <<< 1

/-- Bitmask constant `Power::Ldo2`. -/
def Ldo2 : Nat := 1 <<< 2

/-- Bitmask constant `Power::Ldo4`. -/
def Ldo4 : Nat := 1 <<< 3

/-- Bitmask constant `Power::DcDc2`. -/
def DcDc2 : Nat := 1 <<< 4

/-- Bitmask constant `Power::Ldo3`. -/
def Ldo3 : Nat := 1 <<< 6

end Power

namespace EventsIrq

/-- Bank 1 mask `EventsIrq::Int1`. -/
def Int1 : Nat := 0xFF

/-- Bank 2 mask `EventsIrq::Int2`. -/
def Int2 : Nat := 0xFF00

/-- Bank 3 mask `EventsIrq::Int3`. -/
def Int3 : Nat := 0xFF0000

/-- Bank 4 mask `EventsIrq::Int4`. -/
def Int4 : Nat := 0xFF000000

/-- Bank 5 mask `EventsIrq::Int5`. -/
def Int5 : Nat := 0xFF00000000

/-- `EventsIrq::is_int1`: `self.intersects(Int1)`. -/
def is_int1 (m : Nat) : Bool := m &&& Int1 != 0

/-- `EventsIrq::is_int2`. -/
def is_int2 (m : Nat) : Bool := m &&& Int2 != 0

/-- `EventsIrq::is_int3`. -/
def is_int3 (m : Nat) : Bool := m &&& Int3 != 0

/-- `EventsIrq::is_int4`. -/
def is_int4 (m : Nat) : Bool := m &&& Int4 != 0

/-- `EventsIrq::is_int5`. -/
def is_int5 (m : Nat) : Bool := m &&& Int5 != 0

/-- `EventsIrq::into_int1_u8`: `(self & Int1) as u8`. -/
def into_int1_u8 (m : Nat) : Nat := (m &&& Int1) % 256

/-- `EventsIrq::into_int2_u8`: `((self & Int2) >> 8) as u8`. -/
def into_int2_u8 (m : Nat) : Nat := ((m &&& Int2) >>> 8) % 256

/-- `EventsIrq::into_int3_u8`. -/
def into_int3_u8 (m : Nat) : Nat := ((m &&& Int3) >>> 16) % 256

/-- `EventsIrq::into_int4_u8`. -/
def into_int4_u8 (m : Nat) : Nat := ((m &&& Int4) >>> 24) % 256

/-- `EventsIrq::into_int5_u8`. -/
def into_int5_u8 (m : Nat) : Nat := ((m &&& Int5) >>> 32) % 256

/-- `EventsIrq::from_int1_u8`: `Int1 & (val as u64)`. -/
def from_int1_u8 (v : Nat) : Nat := Int1 &&& v

/-- `EventsIrq::from_int2_u8`: `Int2 & ((val as u64) << 8)`. -/
def from_int2_u8 (v : Nat) : Nat := Int2 &&& (v <<< 8)

/-- `EventsIrq::from_int3_u8`. -/
def from_int3_u8 (v : Nat) : Nat := Int3 &&& (v <<< 16)

/-- `EventsIrq::from_int4_u8`. -/
def from_int4_u8 (v : Nat) : Nat := Int4 &&& (v <<< 24)

/-- `EventsIrq::from_int5_u8`. -/
def from_int5_u8 (v : Nat) : Nat := Int5 &&& (v <<< 32)

/-- `EventsIrq::toggle`: `self | current_mask` when enabling, `self &
!current_mask` when disabling (`!` is 64-bit complement). -/
def toggle (self current_mask : Nat) (enable : Bool) : Nat :=
  if enable then self ||| current_mask else self &&& compl64 current_mask

end EventsIrq

/-- One bank block of `toggle_irq`.  Each of the five `if irqs.is_intN()`
blocks in the source reads the bank's enable register, decodes it, for banks
2..5 additionally ORs the caller's mask into the decoded value
(`EventsIrq::from_intN_u8(irqN).bitor(irqs)`; bank 1 has no `.bitor(irqs)`),
applies `toggle`, re-encodes and writes the bank register.  `orIn` selects
between the two shapes. -/
def bankStep (guard : Bool) (a : Nat) (fromFn : Nat → Nat) (intoFn : Nat → Nat)
    (orIn : Bool) (irqs : Nat) (enable : Bool)
    (st : (Nat → Nat) × List Tx) : (Nat → Nat) × List Tx :=
  if guard then
    let v := st.1 a
    let cur := if orIn then fromFn v ||| irqs else fromFn v
    let out := intoFn (EventsIrq.toggle irqs cur enable)
    (setReg st.1 a out, st.2 ++ [Tx.read a v, Tx.write a out])
  else st

/-- Core of `Axpxx::toggle_irq`: the five sequential bank blocks (bank 1 is
the innermost application, bank 5 the outermost).  Returns the final
register file and the transaction trace. -/
def toggle_irqRun (regs : Nat → Nat) (irqs : Nat) (enable : Bool) :
    (Nat → Nat) × List Tx :=
  bankStep (EventsIrq.is_int5 irqs) Register.EnabledIrq5.addr
    EventsIrq.from_int5_u8 EventsIrq.into_int5_u8 true irqs enable
    (bankStep (EventsIrq.is_int4 irqs) Register.EnabledIrq4.addr
      EventsIrq.from_int4_u8 EventsIrq.into_int4_u8 true irqs enable
      (bankStep (EventsIrq.is_int3 irqs) Register.EnabledIrq3.addr
        EventsIrq.from_int3_u8 EventsIrq.into_int3_u8 true irqs enable
        (bankStep (EventsIrq.is_int2 irqs) Register.EnabledIrq2.addr
          EventsIrq.from_int2_u8 EventsIrq.into_int2_u8 true irqs enable
          (bankStep (EventsIrq.is_int1 irqs) Register.EnabledIrq1.addr
            EventsIrq.from_int1_u8 EventsIrq.into_int1_u8 false irqs enable
            (regs, [])))))

/-- Public `Axpxx::toggle_irq`: does not inspect the lifecycle state and never
errors in the total-bus model. -/
def toggle_irq (st : State) (regs : Nat → Nat) (irqs : Nat) (enable : Bool) :
    Except AxpError ((Nat → Nat) × List Tx) :=
  .ok (toggle_irqRun regs irqs enable)

/-- Core of `Axpxx::clear_irq`: writes 0xFF to the five status registers. -/
def clear_irqRun (regs : Nat → Nat) : (Nat → Nat) × List Tx :=
  let r1 := setReg regs Register.StatusIrq1.addr 0xFF
  let r2 := setReg r1 Register.StatusIrq2.addr 0xFF
  let r3 := setReg r2 Register.StatusIrq3.addr 0xFF
  let r4 := setReg r3 Register.StatusIrq4.addr 0xFF
  let r5 := setReg r4 Register.StatusIrq5.addr 0xFF
  (r5, [Tx.write Register.StatusIrq1.addr 0xFF,
        Tx.write Register.StatusIrq2.addr 0xFF,
        Tx.write Register.StatusIrq3.addr 0xFF,
        Tx.write Register.StatusIrq4.addr 0xFF,
        Tx.write Register.StatusIrq5.addr 0xFF])

/-- Public `Axpxx::clear_irq`. -/
def clear_irq (st : State) (regs : Nat → Nat) :
    Except AxpError ((Nat → Nat) × List Tx) :=
  .ok (clear_irqRun regs)

/-- Core of `Axpxx::read_irq`: reads the five status registers, calls
`clear_irq`, and returns the OR of the five decoded bank values. -/
def read_irqRun (regs : Nat → Nat) : (Nat → Nat) × List Tx × Nat :=
  let irq1 := regs Register.StatusIrq1.addr
  let irq2 := regs Register.StatusIrq2.addr
  let irq3 := regs Register.StatusIrq3.addr
  let irq4 := regs Register.StatusIrq4.addr
  let irq5 := regs Register.StatusIrq5.addr
  let c := clear_irqRun regs
  (c.1,
   [Tx.read Register.StatusIrq1.addr irq1,
    Tx.read Register.StatusIrq2.addr irq2,
    Tx.read Register.StatusIrq3.addr irq3,
    Tx.read Register.StatusIrq4.addr irq4,
    Tx.read Register.StatusIrq5.addr irq5] ++ c.2,
   EventsIrq.from_int1_u8 irq1 ||| EventsIrq.from_int2_u8 irq2 |||
     EventsIrq.from_int3_u8 irq3 ||| EventsIrq.from_int4_u8 irq4 |||
     EventsIrq.from_int5_u8 irq5)

/-- Public `Axpxx::read_irq`. -/
def read_irq (st : State) (regs : Nat → Nat) :
    Except AxpError ((Nat → Nat) × List Tx × Nat) :=
  .ok (read_irqRun regs)

/-- The `match state` arms of `set_power_output`: set the requested bits when
turning `On`, clear them (`data &= !channel`) when turning `Off`. -/
def railApply (data channel : Nat) : PowerState → Nat
  | .On => data ||| channel
  | .Off => data &&& compl8 channel

/-- The chip-identity quirk step of `set_power_output`: for `ChipId::Axp202`
the written value gets `Power::DcDc3` forced on. -/
def quirkApply (chip : ChipId) (data : Nat) : Nat :=
  if chip = ChipId.Axp202 then data ||| Power.DcDc3 else data

/-- The busy-wait loop of `set_power_output`: read the rail-control register,
delay, break when the value is non-zero.  The list holds the successive
values the hardware returns; the result is the read trace up to and
including the first non-zero value, together with that value, or `none` when
the supplied reads are exhausted while still zero. -/
def busyLoop : List Nat → Option (List Tx × Nat)
  | [] => none
  | v :: rest =>
    if v != 0 then some ([Tx.read Register.Ldo234Dc23Ctl.addr v], v)
    else match busyLoop rest with
      | none => none
      | some (tr, w) => some (Tx.read Register.Ldo234Dc23Ctl.addr v :: tr, w)

/-- Outcome of `set_power_output` in the model. -/
inductive SpoResult
  | uninitialized
  | pending
  | done (written : Nat)
deriving DecidableEq, Repr

/-- `Axpxx::set_power_output`: fails with `Error::Uninitialized` before any
bus traffic when the state is `Uninitialized`; otherwise busy-waits for a
non-zero rail-control value, applies the requested change and the chip
quirk, and writes the result back.  `pending` models the loop still spinning
(the supplied read values were exhausted while zero). -/
def set_power_output (st : State) (channel : Nat) (ps : PowerState)
    (reads : List Nat) : List Tx × SpoResult :=
  match st with
  | .Uninitialized => ([], .uninitialized)
  | .Initialized chip =>
    match busyLoop reads with
    | none => (reads.map (Tx.read Register.Ldo234Dc23Ctl.addr), .pending)
    | some (tr, v) =>
      let data := quirkApply chip (railApply v channel ps)
      (tr ++ [Tx.write Register.Ldo234Dc23Ctl.addr data], .done data)

/-- `Axpxx::init`: probes the identity register and moves to
`Initialized(chip_id)`; always succeeds in the total-bus model. -/
def init (st : State) (regs : Nat → Nat) :
    Except AxpError (State × List Tx) :=
  .ok (.Initialized (ChipId.fromRaw (regs Register.IcType.addr)),
       [Tx.read Register.IcType.addr (regs Register.IcType.addr)])

/-- `Axpxx::is_acin_present`: bit 7 of the power-input-status register. -/
def is_acin_present (st : State) (regs : Nat → Nat) :
    Except AxpError (Bool × List Tx) :=
  .ok (regs Register.PowerInputStatus.addr &&& (1 <<< 7) != 0,
       [Tx.read Register.PowerInputStatus.addr (regs Register.PowerInputStatus.addr)])

/-- `Axpxx::is_acin_usable`: bit 6 of the power-input-status register. -/
def is_acin_usable (st : State) (regs : Nat → Nat) :
    Except AxpError (Bool × List Tx) :=
  .ok (regs Register.PowerInputStatus.addr &&& (1 <<< 6) != 0,
       [Tx.read Register.PowerInputStatus.addr (regs Register.PowerInputStatus.addr)])

/-- `Axpxx::is_vbus_present`: bit 5 of the power-input-status register. -/
def is_vbus_present (st : State) (regs : Nat → Nat) :
    Except AxpError (Bool × List Tx) :=
  .ok (regs Register.PowerInputStatus.addr &&& (1 <<< 5) != 0,
       [Tx.read Register.PowerInputStatus.addr (regs Register.PowerInputStatus.addr)])

/-- `Axpxx::is_vbus_usable`: bit 4 of the power-input-status register. -/
def is_vbus_usable (st : State) (regs : Nat → Nat) :
    Except AxpError (Bool × List Tx) :=
  .ok (regs Register.PowerInputStatus.addr &&& (1 <<< 4) != 0,
       [Tx.read Register.PowerInputStatus.addr (regs Register.PowerInputStatus.addr)])

/-- `Axpxx::is_vbus_above`: bit 3 of the power-input-status register. -/
def is_vbus_above (st : State) (regs : Nat → Nat) :
    Except AxpError (Bool × List Tx) :=
  .ok (regs Register.PowerInputStatus.addr &&& (1 <<< 3) != 0,
       [Tx.read Register.PowerInputStatus.addr (regs Register.PowerInputStatus.addr)])

/-- `Axpxx::is_battery_charging`: bit 7 of the Charge1 register. -/
def is_battery_charging (st : State) (regs : Nat → Nat) :
    Except AxpError (Bool × List Tx) :=
  .ok (regs Register.Charge1.addr &&& (1 <<< 7) != 0,
       [Tx.read Register.Charge1.addr (regs Register.Charge1.addr)])

/-- `Axpxx::is_acin_vbus_shortcircuit`: bit 1 of the power-input-status
register. -/
def is_acin_vbus_shortcircuit (st : State) (regs : Nat → Nat) :
    Except AxpError (Bool × List Tx) :=
  .ok (regs Register.PowerInputStatus.addr &&& (1 <<< 1) != 0,
       [Tx.read Register.PowerInputStatus.addr (regs Register.PowerInputStatus.addr)])

/-- `Axpxx::is_bootsource_acin_vbus`: bit 0 of the power-input-status
register. -/
def is_bootsource_acin_vbus (st : State) (regs : Nat → Nat) :
    Except AxpError (Bool × List Tx) :=
  .ok (regs Register.PowerInputStatus.addr &&& (1 <<< 0) != 0,
       [Tx.read Register.PowerInputStatus.addr (regs Register.PowerInputStatus.addr)])

/-- `Axpxx::get_battery_percentage`: one read of the percentage register. -/
def get_battery_percentage (st : State) (regs : Nat → Nat) :
    Except AxpError (Nat × List Tx) :=
  .ok (regs Register.BatteryPercentage.addr,
       [Tx.read Register.BatteryPercentage.addr (regs Register.BatteryPercentage.addr)])

/-- `Axpxx::get_battery_voltage`: two reads combined as
`(high << 4) | (low & 0x0F)`.  The final `f32` scaling by the constant 1.1 is
not modelled (floating point); the model returns the raw 12-bit count, which
is all the claims about this operation depend on. -/
def get_battery_voltage (st : State) (regs : Nat → Nat) :
    Except AxpError (Nat × List Tx) :=
  .ok ((regs Register.BatteryAverageVoltageHigh8b.addr <<< 4) |||
        (regs Register.BatteryAverageVoltageLow4b.addr &&& 0x0F),
       [Tx.read Register.BatteryAverageVoltageHigh8b.addr
          (regs Register.BatteryAverageVoltageHigh8b.addr),
        Tx.read Register.BatteryAverageVoltageLow4b.addr
          (regs Register.BatteryAverageVoltageLow4b.addr)])

end Axp

namespace Axp

/-! ## Helper lemmas about traces and the `toggle_irq` bank machinery -/

theorem writesTo_nil (a : Nat) : writesTo [] a = [] := rfl

theorem writesTo_append (t1 t2 : List Tx) (a : Nat) :
    writesTo (t1 ++ t2) a = writesTo t1 a ++ writesTo t2 a := by
  simp [writesTo]

theorem writesTo_read (t : List Tx) (r v a : Nat) :
    writesTo (Tx.read r v :: t) a = writesTo t a := by
  simp [writesTo]

theorem writesTo_write_eq (t : List Tx) (v a : Nat) :
    writesTo (Tx.write a v :: t) a = v :: writesTo t a := by
  simp [writesTo]

theorem writesTo_write_ne (t : List Tx) (r v a : Nat) (h : r ≠ a) :
    writesTo (Tx.write r v :: t) a = writesTo t a := by
  simp [writesTo, h]

/-- A disabled bank block is the identity. -/
theorem bankStep_false (a : Nat) (fromFn intoFn : Nat → Nat) (orIn : Bool)
    (irqs : Nat) (enable : Bool) (st : (Nat → Nat) × List Tx) :
    bankStep false a fromFn intoFn orIn irqs enable st = st := rfl

/-- A bank block leaves every other register unchanged. -/
theorem bankStep_fst_ne (g : Bool) (a : Nat) (fromFn intoFn : Nat → Nat)
    (orIn : Bool) (irqs : Nat) (enable : Bool) (st : (Nat → Nat) × List Tx)
    (x : Nat) (hx : x ≠ a) :
    (bankStep g a fromFn intoFn orIn irqs enable st).1 x = st.1 x := by
  cases g <;> simp [bankStep, setReg, hx]

/-- Value of the bank's own register after a bank block. -/
theorem bankStep_fst_self (g : Bool) (a : Nat) (fromFn intoFn : Nat → Nat)
    (orIn : Bool) (irqs : Nat) (enable : Bool) (st : (Nat → Nat) × List Tx) :
    (bankStep g a fromFn intoFn orIn irqs enable st).1 a =
      if g then
        intoFn (EventsIrq.toggle irqs
          (if orIn then fromFn (st.1 a) ||| irqs else fromFn (st.1 a)) enable)
      else st.1 a := by
  cases g <;> simp [bankStep, setReg]

/-- A bank block appends no write to any other register. -/
theorem bankStep_writesTo_ne (g : Bool) (a : Nat) (fromFn intoFn : Nat → Nat)
    (orIn : Bool) (irqs : Nat) (enable : Bool) (st : (Nat → Nat) × List Tx)
    (x : Nat) (hx : x ≠ a) :
    writesTo (bankStep g a fromFn intoFn orIn irqs enable st).2 x =
      writesTo st.2 x := by
  cases g <;> simp [bankStep, writesTo, Ne.symm hx]

/-- The writes a bank block issues to its own register. -/
theorem bankStep_writesTo_self (g : Bool) (a : Nat) (fromFn intoFn : Nat → Nat)
    (orIn : Bool) (irqs : Nat) (enable : Bool) (st : (Nat → Nat) × List Tx) :
    writesTo (bankStep g a fromFn intoFn orIn irqs enable st).2 a =
      writesTo st.2 a ++
        (if g then
          [intoFn (EventsIrq.toggle irqs
            (if orIn then fromFn (st.1 a) ||| irqs else fromFn (st.1 a)) enable)]
         else []) := by
  cases g <;> simp [bankStep, writesTo]

/-- Every transaction of a bank block is inherited or touches its register. -/
theorem bankStep_addr_mem (g : Bool) (a : Nat) (fromFn intoFn : Nat → Nat)
    (orIn : Bool) (irqs : Nat) (enable : Bool) (st : (Nat → Nat) × List Tx)
    (tx : Tx) (htx : tx ∈ (bankStep g a fromFn intoFn orIn irqs enable st).2) :
    tx ∈ st.2 ∨ tx.addr = a := by
  cases g
  · exact Or.inl htx
  · simp only [bankStep] at htx
    rcases List.mem_append.mp htx with h | h
    · exact Or.inl h
    · simp only [List.mem_cons, List.not_mem_nil, or_false] at h
      rcases h with rfl | rfl
      · exact Or.inr rfl
      · exact Or.inr rfl

/-- Writes issued to the bank-1 enable register 0x40 by `toggle_irq`. -/
theorem toggle_irqRun_writes_40 (regs : Nat → Nat) (irqs : Nat) (enable : Bool) :
    writesTo (toggle_irqRun regs irqs enable).2 0x40 =
      if EventsIrq.is_int1 irqs then
        [EventsIrq.into_int1_u8
          (EventsIrq.toggle irqs (EventsIrq.from_int1_u8 (regs 0x40)) enable)]
      else [] := by
  simp [toggle_irqRun, Register.addr, bankStep_writesTo_ne,
    bankStep_writesTo_self, bankStep_fst_ne, writesTo_nil]

/-- Writes issued to the bank-2 enable register 0x41 by `toggle_irq`: the
current mask fed to `toggle` is the decoded register ORed with the caller's
mask. -/
theorem toggle_irqRun_writes_41 (regs : Nat → Nat) (irqs : Nat) (enable : Bool) :
    writesTo (toggle_irqRun regs irqs enable).2 0x41 =
      if EventsIrq.is_int2 irqs then
        [EventsIrq.into_int2_u8
          (EventsIrq.toggle irqs
            (EventsIrq.from_int2_u8 (regs 0x41) ||| irqs) enable)]
      else [] := by
  simp [toggle_irqRun, Register.addr, bankStep_writesTo_ne,
    bankStep_writesTo_self, bankStep_fst_ne, writesTo_nil]

/-- Writes issued to the bank-3 enable register 0x42 by `toggle_irq`. -/
theorem toggle_irqRun_writes_42 (regs : Nat → Nat) (irqs : Nat) (enable : Bool) :
    writesTo (toggle_irqRun regs irqs enable).2 0x42 =
      if EventsIrq.is_int3 irqs then
        [EventsIrq.into_int3_u8
          (EventsIrq.toggle irqs
            (EventsIrq.from_int3_u8 (regs 0x42) ||| irqs) enable)]
      else [] := by
  simp [toggle_irqRun, Register.addr, bankStep_writesTo_ne,
    bankStep_writesTo_self, bankStep_fst_ne, writesTo_nil]

/-- Writes issued to the bank-4 enable register 0x43 by `toggle_irq`. -/
theorem toggle_irqRun_writes_43 (regs : Nat → Nat) (irqs : Nat) (enable : Bool) :
    writesTo (toggle_irqRun regs irqs enable).2 0x43 =
      if EventsIrq.is_int4 irqs then
        [EventsIrq.into_int4_u8
          (EventsIrq.toggle irqs
            (EventsIrq.from_int4_u8 (regs 0x43) ||| irqs) enable)]
      else [] := by
  simp [toggle_irqRun, Register.addr, bankStep_writesTo_ne,
    bankStep_writesTo_self, bankStep_fst_ne, writesTo_nil]

/-- Writes issued to the bank-5 enable register 0x45 by `toggle_irq`. -/
theorem toggle_irqRun_writes_45 (regs : Nat → Nat) (irqs : Nat) (enable : Bool) :
    writesTo (toggle_irqRun regs irqs enable).2 0x45 =
      if EventsIrq.is_int5 irqs then
        [EventsIrq.into_int5_u8
          (EventsIrq.toggle irqs
            (EventsIrq.from_int5_u8 (regs 0x45) ||| irqs) enable)]
      else [] := by
  simp [toggle_irqRun, Register.addr, bankStep_writesTo_ne,
    bankStep_writesTo_self, bankStep_fst_ne, writesTo_nil]

/-- Final value of register 0x40 after `toggle_irq`. -/
theorem toggle_irqRun_fst_40 (regs : Nat → Nat) (irqs : Nat) (enable : Bool) :
    (toggle_irqRun regs irqs enable).1 0x40 =
      if EventsIrq.is_int1 irqs then
        EventsIrq.into_int1_u8
          (EventsIrq.toggle irqs (EventsIrq.from_int1_u8 (regs 0x40)) enable)
      else regs 0x40 := by
  simp [toggle_irqRun, Register.addr, bankStep_fst_ne, bankStep_fst_self]

/-- Final value of register 0x41 after `toggle_irq`. -/
theorem toggle_irqRun_fst_41 (regs : Nat → Nat) (irqs : Nat) (enable : Bool) :
    (toggle_irqRun regs irqs enable).1 0x41 =
      if EventsIrq.is_int2 irqs then
        EventsIrq.into_int2_u8
          (EventsIrq.toggle irqs
            (EventsIrq.from_int2_u8 (regs 0x41) ||| irqs) enable)
      else regs 0x41 := by
  simp [toggle_irqRun, Register.addr, bankStep_fst_ne, bankStep_fst_self]

/-- Final value of register 0x42 after `toggle_irq`. -/
theorem toggle_irqRun_fst_42 (regs : Nat → Nat) (irqs : Nat) (enable : Bool) :
    (toggle_irqRun regs irqs enable).1 0x42 =
      if EventsIrq.is_int3 irqs then
        EventsIrq.into_int3_u8
          (EventsIrq.toggle irqs
            (EventsIrq.from_int3_u8 (regs 0x42) ||| irqs) enable)
      else regs 0x42 := by
  simp [toggle_irqRun, Register.addr, bankStep_fst_ne, bankStep_fst_self]

/-- Final value of register 0x43 after `toggle_irq`. -/
theorem toggle_irqRun_fst_43 (regs : Nat → Nat) (irqs : Nat) (enable : Bool) :
    (toggle_irqRun regs irqs enable).1 0x43 =
      if EventsIrq.is_int4 irqs then
        EventsIrq.into_int4_u8
          (EventsIrq.toggle irqs
            (EventsIrq.from_int4_u8 (regs 0x43) ||| irqs) enable)
      else regs 0x43 := by
  simp [toggle_irqRun, Register.addr, bankStep_fst_ne, bankStep_fst_self]

/-- Final value of register 0x45 after `toggle_irq`. -/
theorem toggle_irqRun_fst_45 (regs : Nat → Nat) (irqs : Nat) (enable : Bool) :
    (toggle_irqRun regs irqs enable).1 0x45 =
      if EventsIrq.is_int5 irqs then
        EventsIrq.into_int5_u8
          (EventsIrq.toggle irqs
            (EventsIrq.from_int5_u8 (regs 0x45) ||| irqs) enable)
      else regs 0x45 := by
  simp [toggle_irqRun, Register.addr, bankStep_fst_ne, bankStep_fst_self]

/-- Registers other than the five enable registers are untouched. -/
theorem toggle_irqRun_fst_other (regs : Nat → Nat) (irqs : Nat) (enable : Bool)
    (a : Nat) (h40 : a ≠ 0x40) (h41 : a ≠ 0x41) (h42 : a ≠ 0x42)
    (h43 : a ≠ 0x43) (h45 : a ≠ 0x45) :
    (toggle_irqRun regs irqs enable).1 a = regs a := by
  simp [toggle_irqRun, Register.addr, bankStep_fst_ne, h40, h41, h42, h43, h45]

/-- Membership form of `bankStep_addr_mem` carrying the guard. -/
theorem bankStep_mem_guard (g : Bool) (a : Nat) (fromFn intoFn : Nat → Nat)
    (orIn : Bool) (irqs : Nat) (enable : Bool) (st : (Nat → Nat) × List Tx)
    (tx : Tx) (htx : tx ∈ (bankStep g a fromFn intoFn orIn irqs enable st).2) :
    tx ∈ st.2 ∨ (tx.addr = a ∧ g = true) := by
  cases g
  · exact Or.inl htx
  · rcases bankStep_addr_mem true a fromFn intoFn orIn irqs enable st tx htx
      with h | h
    · exact Or.inl h
    · exact Or.inr ⟨h, rfl⟩

/-- Every transaction of `toggle_irq` touches the enable register of a bank
whose guard is set. -/
theorem toggle_irqRun_mem_addr (regs : Nat → Nat) (irqs : Nat) (enable : Bool)
    (tx : Tx) (htx : tx ∈ (toggle_irqRun regs irqs enable).2) :
    (tx.addr = 0x40 ∧ EventsIrq.is_int1 irqs = true) ∨
    (tx.addr = 0x41 ∧ EventsIrq.is_int2 irqs = true) ∨
    (tx.addr = 0x42 ∧ EventsIrq.is_int3 irqs = true) ∨
    (tx.addr = 0x43 ∧ EventsIrq.is_int4 irqs = true) ∨
    (tx.addr = 0x45 ∧ EventsIrq.is_int5 irqs = true) := by
  simp only [toggle_irqRun, Register.addr] at htx
  rcases bankStep_mem_guard _ _ _ _ _ _ _ _ _ htx with htx | h
  · rcases bankStep_mem_guard _ _ _ _ _ _ _ _ _ htx with htx | h
    · rcases bankStep_mem_guard _ _ _ _ _ _ _ _ _ htx with htx | h
      · rcases bankStep_mem_guard _ _ _ _ _ _ _ _ _ htx with htx | h
        · rcases bankStep_mem_guard _ _ _ _ _ _ _ _ _ htx with htx | h
          · exact absurd htx (List.not_mem_nil tx)
          · exact Or.inl h
        · exact Or.inr (Or.inl h)
      · exact Or.inr (Or.inr (Or.inl h))
    · exact Or.inr (Or.inr (Or.inr (Or.inl h)))
  · exact Or.inr (Or.inr (Or.inr (Or.inr h)))

/-! ## Theorems for the claims -/

/-- C5: every `read_irq` call issues exactly five status-register reads
followed by exactly five writes of 0xFF (one per status register),
independent of the values read, and returns the bitwise OR of the five bank
values each decoded into its logical 8-bit slice. -/
theorem C5_read_irq_trace (regs : Nat → Nat) :
    (read_irqRun regs).2.1 =
      [Tx.read 0x48 (regs 0x48), Tx.read 0x49 (regs 0x49),
       Tx.read 0x4A (regs 0x4A), Tx.read 0x4B (regs 0x4B),
       Tx.read 0x4C (regs 0x4C),
       Tx.write 0x48 0xFF, Tx.write 0x49 0xFF, Tx.write 0x4A 0xFF,
       Tx.write 0x4B 0xFF, Tx.write 0x4C 0xFF] ∧
    (read_irqRun regs).2.2 =
      EventsIrq.from_int1_u8 (regs 0x48) ||| EventsIrq.from_int2_u8 (regs 0x49) |||
      EventsIrq.from_int3_u8 (regs 0x4A) ||| EventsIrq.from_int4_u8 (regs 0x4B) |||
      EventsIrq.from_int5_u8 (regs 0x4C) :=
  ⟨rfl, rfl⟩

set_option maxRecDepth 8192 in
/-- C7: for every bank and every byte `b < 256`, encoding `b` into the bank's
slice of the 64-bit logical mask and decoding it back yields `b`. -/
theorem C7_bank_roundtrip : ∀ b : Nat, b < 256 →
    EventsIrq.into_int1_u8 (EventsIrq.from_int1_u8 b) = b ∧
    EventsIrq.into_int2_u8 (EventsIrq.from_int2_u8 b) = b ∧
    EventsIrq.into_int3_u8 (EventsIrq.from_int3_u8 b) = b ∧
    EventsIrq.into_int4_u8 (EventsIrq.from_int4_u8 b) = b ∧
    EventsIrq.into_int5_u8 (EventsIrq.from_int5_u8 b) = b := by
  decide

/-- Witness for C7 at the concrete byte 0xA5. -/
theorem C7_bank_roundtrip_witness :
    (0xA5 : Nat) < 256 ∧
    EventsIrq.into_int1_u8 (EventsIrq.from_int1_u8 0xA5) = 0xA5 ∧
    EventsIrq.into_int2_u8 (EventsIrq.from_int2_u8 0xA5) = 0xA5 ∧
    EventsIrq.into_int3_u8 (EventsIrq.from_int3_u8 0xA5) = 0xA5 ∧
    EventsIrq.into_int4_u8 (EventsIrq.from_int4_u8 0xA5) = 0xA5 ∧
    EventsIrq.into_int5_u8 (EventsIrq.from_int5_u8 0xA5) = 0xA5 :=
  ⟨by decide, C7_bank_roundtrip 0xA5 (by decide)⟩

/-- C8: `set_power_output` on an uninitialized device returns the
`Uninitialized` error and issues no bus transaction, for every channel,
state and hardware behaviour. -/
theorem C8_uninitialized_no_bus (channel : Nat) (ps : PowerState)
    (reads : List Nat) :
    set_power_output State.Uninitialized channel ps reads =
      ([], SpoResult.uninitialized) :=
  rfl

/-- C9: `init` reads the identity register once and always succeeds,
transitioning to `Initialized` with the decoded identity; 0x41, 0x03 and
0xAD decode to their variants and every other byte decodes to `Unknown`
rather than an error. -/
theorem C9_init_decodes (st : State) (regs : Nat → Nat) :
    init st regs =
      .ok (State.Initialized (ChipId.fromRaw (regs 0x03)),
           [Tx.read 0x03 (regs 0x03)]) ∧
    ChipId.fromRaw 0x41 = ChipId.Axp202 ∧
    ChipId.fromRaw 0x03 = ChipId.Axp192 ∧
    ChipId.fromRaw 0xAD = ChipId.Axp173 ∧
    ∀ b : Nat, b ≠ 0x41 → b ≠ 0x03 → b ≠ 0xAD →
      ChipId.fromRaw b = ChipId.Unknown := by
  refine ⟨rfl, rfl, rfl, rfl, ?_⟩
  intro b h1 h2 h3
  simp [ChipId.fromRaw, h1, h2, h3]

/-- Witness for C9: a device whose identity register reads 0x7E initializes
successfully with the `Unknown` identity. -/
theorem C9_init_decodes_witness :
    init State.Uninitialized (fun _ => 0x7E) =
      .ok (State.Initialized (ChipId.fromRaw 0x7E), [Tx.read 0x03 0x7E]) ∧
    ChipId.fromRaw 0x7E = ChipId.Unknown :=
  ⟨(C9_init_decodes State.Uninitialized (fun _ => 0x7E)).1,
   (C9_init_decodes State.Uninitialized (fun _ => 0x7E)).2.2.2.2 0x7E
     (by decide) (by decide) (by decide)⟩

/-- C10: `set_power_output` is the only public operation requiring prior
initialization: on an `Uninitialized` device it fails, while every other
public operation performs its bus transactions and never returns the
`Uninitialized` error. -/
theorem C10_only_set_power_output_requires_init (regs : Nat → Nat)
    (irqs : Nat) (enable : Bool) (channel : Nat) (ps : PowerState)
    (reads : List Nat) :
    (set_power_output State.Uninitialized channel ps reads).2 =
      SpoResult.uninitialized ∧
    is_acin_present State.Uninitialized regs =
      .ok (regs 0x00 &&& 128 != 0, [Tx.read 0x00 (regs 0x00)]) ∧
    is_acin_usable State.Uninitialized regs =
      .ok (regs 0x00 &&& 64 != 0, [Tx.read 0x00 (regs 0x00)]) ∧
    is_vbus_present State.Uninitialized regs =
      .ok (regs 0x00 &&& 32 != 0, [Tx.read 0x00 (regs 0x00)]) ∧
    is_vbus_usable State.Uninitialized regs =
      .ok (regs 0x00 &&& 16 != 0, [Tx.read 0x00 (regs 0x00)]) ∧
    is_vbus_above State.Uninitialized regs =
      .ok (regs 0x00 &&& 8 != 0, [Tx.read 0x00 (regs 0x00)]) ∧
    is_acin_vbus_shortcircuit State.Uninitialized regs =
      .ok (regs 0x00 &&& 2 != 0, [Tx.read 0x00 (regs 0x00)]) ∧
    is_bootsource_acin_vbus State.Uninitialized regs =
      .ok (regs 0x00 &&& 1 != 0, [Tx.read 0x00 (regs 0x00)]) ∧
    is_battery_charging State.Uninitialized regs =
      .ok (regs 0x33 &&& 128 != 0, [Tx.read 0x33 (regs 0x33)]) ∧
    get_battery_percentage State.Uninitialized regs =
      .ok (regs 0xB9, [Tx.read 0xB9 (regs 0xB9)]) ∧
    get_battery_voltage State.Uninitialized regs =
      .ok ((regs 0x78 <<< 4) ||| (regs 0x79 &&& 0x0F),
           [Tx.read 0x78 (regs 0x78), Tx.read 0x79 (regs 0x79)]) ∧
    toggle_irq State.Uninitialized regs irqs enable ≠
      .error AxpError.Uninitialized ∧
    read_irq State.Uninitialized regs ≠ .error AxpError.Uninitialized ∧
    (read_irqRun regs).2.1 ≠ [] ∧
    clear_irq State.Uninitialized regs ≠ .error AxpError.Uninitialized ∧
    (clear_irqRun regs).2 ≠ [] := by
  refine ⟨rfl, rfl, rfl, rfl, rfl, rfl, rfl, rfl, rfl, rfl, rfl, ?_, ?_, ?_, ?_, ?_⟩
  · exact fun h => Except.noConfusion h
  · exact fun h => Except.noConfusion h
  · exact fun h => List.noConfusion h
  · exact fun h => Except.noConfusion h
  · exact fun h => List.noConfusion h

set_option maxRecDepth 4096 in
/-- C1 counterexample: with all enable registers reading 0, requesting bank-2
bit 0x100 with `enable = false` writes 0x00 to register 0x41, not the
bank-2 byte of `requested.toggle(currentBankMask, false)` (which is 0x01
when `currentBankMask` is the decoded register value, as the claim states). -/
theorem C1_counterexample :
    writesTo (toggle_irqRun (fun _ => 0) 0x100 false).2 0x41 ≠
      [EventsIrq.into_int2_u8
        (EventsIrq.toggle 0x100
          (EventsIrq.from_int2_u8 ((fun _ => (0 : Nat)) 0x41)) false)] := by
  decide

/-- C1 (amended): for every bank whose bit range intersects the caller's
mask, `toggle_irq` writes to that bank's enable register exactly the bank
byte of `requested.toggle(currentBankMask, enable)`, where `currentBankMask`
is the decoded current register value for bank 1, and the decoded current
register value ORed with the caller's requested mask for banks 2..5; banks
not intersecting the mask receive no write. -/
theorem C1_toggle_irq_bank_writes (regs : Nat → Nat) (irqs : Nat)
    (enable : Bool) :
    (writesTo (toggle_irqRun regs irqs enable).2 0x40 =
      if EventsIrq.is_int1 irqs then
        [EventsIrq.into_int1_u8
          (EventsIrq.toggle irqs (EventsIrq.from_int1_u8 (regs 0x40)) enable)]
      else []) ∧
    (writesTo (toggle_irqRun regs irqs enable).2 0x41 =
      if EventsIrq.is_int2 irqs then
        [EventsIrq.into_int2_u8
          (EventsIrq.toggle irqs
            (EventsIrq.from_int2_u8 (regs 0x41) ||| irqs) enable)]
      else []) ∧
    (writesTo (toggle_irqRun regs irqs enable).2 0x42 =
      if EventsIrq.is_int3 irqs then
        [EventsIrq.into_int3_u8
          (EventsIrq.toggle irqs
            (EventsIrq.from_int3_u8 (regs 0x42) ||| irqs) enable)]
      else []) ∧
    (writesTo (toggle_irqRun regs irqs enable).2 0x43 =
      if EventsIrq.is_int4 irqs then
        [EventsIrq.into_int4_u8
          (EventsIrq.toggle irqs
            (EventsIrq.from_int4_u8 (regs 0x43) ||| irqs) enable)]
      else []) ∧
    (writesTo (toggle_irqRun regs irqs enable).2 0x45 =
      if EventsIrq.is_int5 irqs then
        [EventsIrq.into_int5_u8
          (EventsIrq.toggle irqs
            (EventsIrq.from_int5_u8 (regs 0x45) ||| irqs) enable)]
      else []) :=
  ⟨toggle_irqRun_writes_40 regs irqs enable,
   toggle_irqRun_writes_41 regs irqs enable,
   toggle_irqRun_writes_42 regs irqs enable,
   toggle_irqRun_writes_43 regs irqs enable,
   toggle_irqRun_writes_45 regs irqs enable⟩

/-- C6: a bank whose 8-bit range does not intersect the caller's mask is
neither read nor written by `toggle_irq` (no transaction touches its enable
register and its value is unchanged), and an empty mask issues no bus
transaction at all. -/
theorem C6_untouched_banks (regs : Nat → Nat) (irqs : Nat) (enable : Bool) :
    (EventsIrq.is_int1 irqs = false →
      (∀ tx ∈ (toggle_irqRun regs irqs enable).2, tx.addr ≠ 0x40) ∧
      (toggle_irqRun regs irqs enable).1 0x40 = regs 0x40) ∧
    (EventsIrq.is_int2 irqs = false →
      (∀ tx ∈ (toggle_irqRun regs irqs enable).2, tx.addr ≠ 0x41) ∧
      (toggle_irqRun regs irqs enable).1 0x41 = regs 0x41) ∧
    (EventsIrq.is_int3 irqs = false →
      (∀ tx ∈ (toggle_irqRun regs irqs enable).2, tx.addr ≠ 0x42) ∧
      (toggle_irqRun regs irqs enable).1 0x42 = regs 0x42) ∧
    (EventsIrq.is_int4 irqs = false →
      (∀ tx ∈ (toggle_irqRun regs irqs enable).2, tx.addr ≠ 0x43) ∧
      (toggle_irqRun regs irqs enable).1 0x43 = regs 0x43) ∧
    (EventsIrq.is_int5 irqs = false →
      (∀ tx ∈ (toggle_irqRun regs irqs enable).2, tx.addr ≠ 0x45) ∧
      (toggle_irqRun regs irqs enable).1 0x45 = regs 0x45) ∧
    (irqs = 0 → toggle_irqRun regs irqs enable = (regs, [])) := by
  refine ⟨fun h => ⟨?_, by simp [toggle_irqRun_fst_40, h]⟩,
          fun h => ⟨?_, by simp [toggle_irqRun_fst_41, h]⟩,
          fun h => ⟨?_, by simp [toggle_irqRun_fst_42, h]⟩,
          fun h => ⟨?_, by simp [toggle_irqRun_fst_43, h]⟩,
          fun h => ⟨?_, by simp [toggle_irqRun_fst_45, h]⟩,
          fun h => by subst h; rfl⟩ <;>
    · intro tx htx heq
      rcases toggle_irqRun_mem_addr regs irqs enable tx htx with
        ⟨ha, hg⟩ | ⟨ha, hg⟩ | ⟨ha, hg⟩ | ⟨ha, hg⟩ | ⟨ha, hg⟩ <;> simp_all

/-- Witness for C6: with mask 0x100 (bank 2 only), register 0x40 is untouched
and keeps its value 5; with the empty mask nothing happens at all. -/
theorem C6_untouched_banks_witness :
    (∀ tx ∈ (toggle_irqRun (fun _ => 5) 0x100 true).2, tx.addr ≠ 0x40) ∧
    (toggle_irqRun (fun _ => 5) 0x100 true).1 0x40 = 5 ∧
    toggle_irqRun (fun _ => 5) 0 true = ((fun _ => 5), []) :=
  ⟨((C6_untouched_banks (fun _ => 5) 0x100 true).1 (by decide)).1,
   ((C6_untouched_banks (fun _ => 5) 0x100 true).1 (by decide)).2,
   (C6_untouched_banks (fun _ => 5) 0 true).2.2.2.2.2 rfl⟩


/-- Disabling can never leave a bit of `m` set when every requested bit of
`m` is covered by the current mask. -/
theorem toggle_off_covered_land (irqs cur m : Nat) (hm : m < 2 ^ 64)
    (hcov : ∀ i, m.testBit i = true → irqs.testBit i = true →
      cur.testBit i = true) :
    EventsIrq.toggle irqs cur false &&& m = 0 := by
  have ht : EventsIrq.toggle irqs cur false = irqs &&& compl64 cur := rfl
  rw [ht]
  apply Nat.eq_of_testBit_eq
  intro i
  have h64 : (0xFFFFFFFFFFFFFFFF : Nat) = 2 ^ 64 - 1 := by norm_num
  simp only [compl64, h64, Nat.testBit_and, Nat.testBit_xor,
    Nat.testBit_two_pow_sub_one, Nat.zero_testBit]
  rcases Nat.lt_or_ge i 64 with h | h
  · cases hmi : m.testBit i
    · simp
    · cases hirq : irqs.testBit i
      · simp
      · have hcur := hcov i hmi hirq
        simp [hcur, h]
  · have hmi : m.testBit i = false :=
      Nat.testBit_lt_two_pow
        (lt_of_lt_of_le hm (Nat.pow_le_pow_right (by norm_num) h))
    simp [hmi]

/-- In banks 2..5 the current mask fed to `toggle` contains the requested
mask itself, so a disable writes the zero byte whatever the register held. -/
theorem disable_after_or_self_int2 (irqs x : Nat) :
    EventsIrq.into_int2_u8 (EventsIrq.toggle irqs (x ||| irqs) false) = 0 := by
  have h : EventsIrq.toggle irqs (x ||| irqs) false &&& EventsIrq.Int2 = 0 :=
    toggle_off_covered_land _ _ _ (by norm_num [EventsIrq.Int2])
      (fun i _ hi => by simp [hi])
  simp [EventsIrq.into_int2_u8, h]

/-- Bank-3 analogue of `disable_after_or_self_int2`. -/
theorem disable_after_or_self_int3 (irqs x : Nat) :
    EventsIrq.into_int3_u8 (EventsIrq.toggle irqs (x ||| irqs) false) = 0 := by
  have h : EventsIrq.toggle irqs (x ||| irqs) false &&& EventsIrq.Int3 = 0 :=
    toggle_off_covered_land _ _ _ (by norm_num [EventsIrq.Int3])
      (fun i _ hi => by simp [hi])
  simp [EventsIrq.into_int3_u8, h]

/-- Bank-4 analogue of `disable_after_or_self_int2`. -/
theorem disable_after_or_self_int4 (irqs x : Nat) :
    EventsIrq.into_int4_u8 (EventsIrq.toggle irqs (x ||| irqs) false) = 0 := by
  have h : EventsIrq.toggle irqs (x ||| irqs) false &&& EventsIrq.Int4 = 0 :=
    toggle_off_covered_land _ _ _ (by norm_num [EventsIrq.Int4])
      (fun i _ hi => by simp [hi])
  simp [EventsIrq.into_int4_u8, h]

/-- Bank-5 analogue of `disable_after_or_self_int2`. -/
theorem disable_after_or_self_int5 (irqs x : Nat) :
    EventsIrq.into_int5_u8 (EventsIrq.toggle irqs (x ||| irqs) false) = 0 := by
  have h : EventsIrq.toggle irqs (x ||| irqs) false &&& EventsIrq.Int5 = 0 :=
    toggle_off_covered_land _ _ _ (by norm_num [EventsIrq.Int5])
      (fun i _ hi => by simp [hi])
  simp [EventsIrq.into_int5_u8, h]

/-- Bank 1 after an enable holds every requested low-byte bit, so the
following disable also writes the zero byte. -/
theorem bank1_disable_after_enable (irqs r : Nat) :
    EventsIrq.into_int1_u8 (EventsIrq.toggle irqs
      (EventsIrq.from_int1_u8 (EventsIrq.into_int1_u8
        (EventsIrq.toggle irqs (EventsIrq.from_int1_u8 r) true))) false) = 0 := by
  have hcov : ∀ i, EventsIrq.Int1.testBit i = true → irqs.testBit i = true →
      (EventsIrq.from_int1_u8 (EventsIrq.into_int1_u8
        (EventsIrq.toggle irqs (EventsIrq.from_int1_u8 r) true))).testBit i =
        true := by
    intro i hm hi
    have h8 : i < 8 := by
      rw [show EventsIrq.Int1 = 2 ^ 8 - 1 by norm_num [EventsIrq.Int1],
        Nat.testBit_two_pow_sub_one] at hm
      exact of_decide_eq_true hm
    have t255 : Nat.testBit EventsIrq.Int1 i = true := by
      rw [show EventsIrq.Int1 = 2 ^ 8 - 1 by norm_num [EventsIrq.Int1],
        Nat.testBit_two_pow_sub_one]
      exact decide_eq_true h8
    have htog : EventsIrq.toggle irqs (EventsIrq.from_int1_u8 r) true =
        irqs ||| EventsIrq.from_int1_u8 r := rfl
    rw [EventsIrq.from_int1_u8, Nat.testBit_and, t255, Bool.true_and,
      EventsIrq.into_int1_u8, show (256 : Nat) = 2 ^ 8 by norm_num,
      Nat.testBit_mod_two_pow, Nat.testBit_and, t255, Bool.and_true,
      htog, Nat.testBit_or, hi]
    simp [h8]
  have h : EventsIrq.toggle irqs
      (EventsIrq.from_int1_u8 (EventsIrq.into_int1_u8
        (EventsIrq.toggle irqs (EventsIrq.from_int1_u8 r) true))) false &&&
      EventsIrq.Int1 = 0 :=
    toggle_off_covered_land _ _ _ (by norm_num [EventsIrq.Int1]) hcov
  rw [EventsIrq.into_int1_u8, h]

set_option maxRecDepth 4096 in
/-- C2 counterexample: with every enable register reading 1 and mask 1,
`toggle_irq(1, true)` then `toggle_irq(1, false)` leaves register 0x40 at 0,
not its pre-test value 1. -/
theorem C2_counterexample :
    (toggle_irqRun (toggle_irqRun (fun _ => 1) 1 true).1 1 false).1 0x40 ≠
      (fun _ => (1 : Nat)) 0x40 := by
  decide

/-- C2 (amended): `toggle_irq(mask, true)` followed by `toggle_irq(mask,
false)` leaves each enable register of a bank touched by the mask equal to
0x00 (not its pre-test value), and leaves the registers of untouched banks
and all other registers byte-identical to their pre-test value. -/
theorem C2_enable_disable_pair (regs : Nat → Nat) (irqs : Nat)
    (r1 r2 : (Nat → Nat) × List Tx)
    (h1 : toggle_irqRun regs irqs true = r1)
    (h2 : toggle_irqRun r1.1 irqs false = r2) :
    (EventsIrq.is_int1 irqs = true → r2.1 0x40 = 0) ∧
    (EventsIrq.is_int1 irqs = false → r2.1 0x40 = regs 0x40) ∧
    (EventsIrq.is_int2 irqs = true → r2.1 0x41 = 0) ∧
    (EventsIrq.is_int2 irqs = false → r2.1 0x41 = regs 0x41) ∧
    (EventsIrq.is_int3 irqs = true → r2.1 0x42 = 0) ∧
    (EventsIrq.is_int3 irqs = false → r2.1 0x42 = regs 0x42) ∧
    (EventsIrq.is_int4 irqs = true → r2.1 0x43 = 0) ∧
    (EventsIrq.is_int4 irqs = false → r2.1 0x43 = regs 0x43) ∧
    (EventsIrq.is_int5 irqs = true → r2.1 0x45 = 0) ∧
    (EventsIrq.is_int5 irqs = false → r2.1 0x45 = regs 0x45) ∧
    (∀ a : Nat, a ≠ 0x40 → a ≠ 0x41 → a ≠ 0x42 → a ≠ 0x43 → a ≠ 0x45 →
      r2.1 a = regs a) := by
  subst h1
  subst h2
  refine ⟨?_, ?_, ?_, ?_, ?_, ?_, ?_, ?_, ?_, ?_, ?_⟩
  · intro h
    rw [toggle_irqRun_fst_40, toggle_irqRun_fst_40]
    simp only [h, if_true]
    exact bank1_disable_after_enable irqs (regs 0x40)
  · intro h
    simp [toggle_irqRun_fst_40, h]
  · intro h
    rw [toggle_irqRun_fst_41, toggle_irqRun_fst_41]
    simp only [h, if_true]
    exact disable_after_or_self_int2 irqs _
  · intro h
    simp [toggle_irqRun_fst_41, h]
  · intro h
    rw [toggle_irqRun_fst_42, toggle_irqRun_fst_42]
    simp only [h, if_true]
    exact disable_after_or_self_int3 irqs _
  · intro h
    simp [toggle_irqRun_fst_42, h]
  · intro h
    rw [toggle_irqRun_fst_43, toggle_irqRun_fst_43]
    simp only [h, if_true]
    exact disable_after_or_self_int4 irqs _
  · intro h
    simp [toggle_irqRun_fst_43, h]
  · intro h
    rw [toggle_irqRun_fst_45, toggle_irqRun_fst_45]
    simp only [h, if_true]
    exact disable_after_or_self_int5 irqs _
  · intro h
    simp [toggle_irqRun_fst_45, h]
  · intro a h40 h41 h42 h43 h45
    rw [toggle_irqRun_fst_other _ _ _ a h40 h41 h42 h43 h45,
        toggle_irqRun_fst_other _ _ _ a h40 h41 h42 h43 h45]

/-- Witness for the amended C2 at mask 0x0101 (banks 1 and 2) over registers
holding 0xAA: the touched registers end at 0, the untouched ones keep 0xAA. -/
theorem C2_enable_disable_pair_witness :
    (toggle_irqRun (toggle_irqRun (fun _ => 0xAA) 0x0101 true).1
      0x0101 false).1 0x40 = 0 ∧
    (toggle_irqRun (toggle_irqRun (fun _ => 0xAA) 0x0101 true).1
      0x0101 false).1 0x41 = 0 ∧
    (toggle_irqRun (toggle_irqRun (fun _ => 0xAA) 0x0101 true).1
      0x0101 false).1 0x42 = 0xAA ∧
    (toggle_irqRun (toggle_irqRun (fun _ => 0xAA) 0x0101 true).1
      0x0101 false).1 0x33 = 0xAA :=
  ⟨(C2_enable_disable_pair (fun _ => 0xAA) 0x0101 _ _ rfl rfl).1 (by decide),
   (C2_enable_disable_pair (fun _ => 0xAA) 0x0101 _ _ rfl rfl).2.2.1 (by decide),
   (C2_enable_disable_pair (fun _ => 0xAA) 0x0101 _ _ rfl rfl).2.2.2.2.2.1
     (by decide),
   (C2_enable_disable_pair (fun _ => 0xAA) 0x0101 _ _ rfl rfl).2.2.2.2.2.2.2.2.2.2
     0x33 (by decide) (by decide) (by decide) (by decide) (by decide)⟩


/-- Characterization of the busy-wait loop: when some supplied read value is
non-zero, the loop stops at the first such value, having read every earlier
(zero) value once. -/
theorem busyLoop_spec : ∀ reads : List Nat, (∃ x ∈ reads, x ≠ 0) →
    ∃ k, ∃ hk : k < reads.length,
      reads.get ⟨k, hk⟩ ≠ 0 ∧
      (∀ j, ∀ hj : j < reads.length, j < k → reads.get ⟨j, hj⟩ = 0) ∧
      busyLoop reads =
        some ((reads.take (k + 1)).map (Tx.read 0x12), reads.get ⟨k, hk⟩) := by
  intro reads
  induction reads with
  | nil => intro h; simp at h
  | cons v rest ih =>
    intro h
    rcases eq_or_ne v 0 with rfl | hv
    · have h' : ∃ x ∈ rest, x ≠ 0 := by simpa using h
      obtain ⟨k, hk, hnz, hz, heq⟩ := ih h'
      refine ⟨k + 1, Nat.succ_lt_succ hk, hnz, ?_, ?_⟩
      · intro j hj hjk
        cases j with
        | zero => rfl
        | succ j =>
          exact hz j (Nat.lt_of_succ_lt_succ hj) (Nat.lt_of_succ_lt_succ hjk)
      · have hstep : busyLoop (0 :: rest) =
            match busyLoop rest with
            | none => none
            | some (tr, w) => some (Tx.read 0x12 0 :: tr, w) := rfl
        rw [hstep, heq]
        simp [List.take_succ_cons]
    · refine ⟨0, Nat.succ_pos _, hv, ?_, ?_⟩
      · intro j hj hjk
        exact absurd hjk (Nat.not_lt_zero j)
      · simp [busyLoop, hv, Register.addr]

/-- Setting bits: `(v | c) & c = c`. -/
theorem or_land_self (a b : Nat) : (a ||| b) &&& b = b := by
  apply Nat.eq_of_testBit_eq
  intro i
  simp only [Nat.testBit_and, Nat.testBit_or]
  cases hb : b.testBit i <;> simp [hb]

/-- Clearing bits: `(v & !c) & c = 0` for a `u8` mask `c`. -/
theorem land_compl8_land_self (v c : Nat) (hc : c < 256) :
    (v &&& compl8 c) &&& c = 0 := by
  apply Nat.eq_of_testBit_eq
  intro i
  simp only [compl8, show (0xFF : Nat) = 2 ^ 8 - 1 by norm_num,
    Nat.testBit_and, Nat.testBit_xor, Nat.testBit_two_pow_sub_one,
    Nat.zero_testBit]
  rcases Nat.lt_or_ge i 8 with h | h
  · cases hci : c.testBit i
    · simp
    · simp [h]
  · have hci : c.testBit i = false :=
      Nat.testBit_lt_two_pow
        (lt_of_lt_of_le ((show (256 : Nat) = 2 ^ 8 by norm_num) ▸ hc)
          (Nat.pow_le_pow_right (by norm_num) h))
    simp [hci]

/-- Bits outside the mask survive `v & !c` for bytes `v`. -/
theorem land_compl8_outside (v c i : Nat) (hv : v < 256)
    (hci : c.testBit i = false) :
    (v &&& compl8 c).testBit i = v.testBit i := by
  simp only [compl8, show (0xFF : Nat) = 2 ^ 8 - 1 by norm_num,
    Nat.testBit_and, Nat.testBit_xor, Nat.testBit_two_pow_sub_one, hci,
    Bool.xor_false]
  rcases Nat.lt_or_ge i 8 with h | h
  · simp [h]
  · have hvi : v.testBit i = false :=
      Nat.testBit_lt_two_pow
        (lt_of_lt_of_le ((show (256 : Nat) = 2 ^ 8 by norm_num) ▸ hv)
          (Nat.pow_le_pow_right (by norm_num) h))
    simp [hvi]

/-- C3: a successful `set_power_output` on an initialized device reads the
rail-control register until the first non-zero value, then issues one write
whose value (before the chip quirk) is that first non-zero value with the
requested channel bits set (`On`) or cleared (`Off`) and every bit outside
the channel mask unchanged. -/
theorem C3_set_power_output_rmw (chip : ChipId) (channel : Nat)
    (ps : PowerState) (reads : List Nat) (hch : channel < 256)
    (hbytes : ∀ x ∈ reads, x < 256) (hnz : ∃ x ∈ reads, x ≠ 0) :
    ∃ k, ∃ hk : k < reads.length,
      reads.get ⟨k, hk⟩ ≠ 0 ∧
      (∀ j, ∀ hj : j < reads.length, j < k → reads.get ⟨j, hj⟩ = 0) ∧
      set_power_output (State.Initialized chip) channel ps reads =
        ((reads.take (k + 1)).map (Tx.read 0x12) ++
          [Tx.write 0x12
            (quirkApply chip (railApply (reads.get ⟨k, hk⟩) channel ps))],
         SpoResult.done
           (quirkApply chip (railApply (reads.get ⟨k, hk⟩) channel ps))) ∧
      railApply (reads.get ⟨k, hk⟩) channel ps &&& channel =
        (if ps = PowerState.On then channel else 0) ∧
      ∀ i, channel.testBit i = false →
        (railApply (reads.get ⟨k, hk⟩) channel ps).testBit i =
          (reads.get ⟨k, hk⟩).testBit i := by
  obtain ⟨k, hk, hnz', hz, heq⟩ := busyLoop_spec reads hnz
  have hvmem : reads.get ⟨k, hk⟩ ∈ reads := List.get_mem reads k hk
  have hv : reads.get ⟨k, hk⟩ < 256 := hbytes _ hvmem
  refine ⟨k, hk, hnz', hz, ?_, ?_, ?_⟩
  · simp [set_power_output, heq, Register.addr]
  · cases ps
    · simp [railApply, or_land_self]
    · simp [railApply, land_compl8_land_self _ _ hch]
  · intro i hci
    cases ps
    · simp [railApply, Nat.testBit_or, hci]
    · exact land_compl8_outside _ _ _ hv hci

/-- Witness for C3: chip Axp192, channel 4, `On`, reads `[0, 5]`. -/
theorem C3_set_power_output_rmw_witness :
    (4 : Nat) < 256 ∧ (∀ x ∈ [0, 5], x < 256) ∧ (∃ x ∈ [0, 5], x ≠ 0) ∧
    ∃ k, ∃ hk : k < ([0, 5] : List Nat).length,
      ([0, 5] : List Nat).get ⟨k, hk⟩ ≠ 0 ∧
      (∀ j, ∀ hj : j < ([0, 5] : List Nat).length, j < k →
        ([0, 5] : List Nat).get ⟨j, hj⟩ = 0) ∧
      set_power_output (State.Initialized ChipId.Axp192) 4 PowerState.On
          [0, 5] =
        ((([0, 5] : List Nat).take (k + 1)).map (Tx.read 0x12) ++
          [Tx.write 0x12
            (quirkApply ChipId.Axp192
              (railApply (([0, 5] : List Nat).get ⟨k, hk⟩) 4 PowerState.On))],
         SpoResult.done
           (quirkApply ChipId.Axp192
             (railApply (([0, 5] : List Nat).get ⟨k, hk⟩) 4 PowerState.On))) ∧
      railApply (([0, 5] : List Nat).get ⟨k, hk⟩) 4 PowerState.On &&& 4 =
        (if PowerState.On = PowerState.On then 4 else 0) ∧
      ∀ i, (4 : Nat).testBit i = false →
        (railApply (([0, 5] : List Nat).get ⟨k, hk⟩) 4 PowerState.On).testBit
            i =
          (([0, 5] : List Nat).get ⟨k, hk⟩).testBit i :=
  ⟨by decide, by decide, by decide,
   C3_set_power_output_rmw ChipId.Axp192 4 PowerState.On [0, 5]
     (by decide) (by decide) (by decide)⟩

/-- C4: on a successful `set_power_output`, the written value always has the
quirk bit (DcDc3, bit 1) set when the chip is Axp202, whatever channel and
state were requested; for any other chip identity the written value is
exactly the read-modify result, so the quirk bit is never forced. -/
theorem C4_quirk_bit (chip : ChipId) (channel : Nat) (ps : PowerState)
    (reads : List Nat) (hnz : ∃ x ∈ reads, x ≠ 0) :
    ∃ w tr,
      set_power_output (State.Initialized chip) channel ps reads =
        (tr, SpoResult.done w) ∧
      (chip = ChipId.Axp202 → w.testBit 1 = true ∧
        ∃ v ∈ reads, w = railApply v channel ps ||| Power.DcDc3) ∧
      (chip ≠ ChipId.Axp202 → ∃ v ∈ reads, v ≠ 0 ∧
        w = railApply v channel ps) := by
  obtain ⟨k, hk, hnz', hz, heq⟩ := busyLoop_spec reads hnz
  have hvmem : reads.get ⟨k, hk⟩ ∈ reads := List.get_mem reads k hk
  refine ⟨quirkApply chip (railApply (reads.get ⟨k, hk⟩) channel ps),
    (reads.take (k + 1)).map (Tx.read 0x12) ++
      [Tx.write 0x12
        (quirkApply chip (railApply (reads.get ⟨k, hk⟩) channel ps))],
    ?_, ?_, ?_⟩
  · simp [set_power_output, heq, Register.addr]
  · intro h
    subst h
    constructor
    · have hq : quirkApply ChipId.Axp202
          (railApply (reads.get ⟨k, hk⟩) channel ps) =
          railApply (reads.get ⟨k, hk⟩) channel ps ||| 2 := by
        simp [quirkApply, Power.DcDc3]
      rw [hq]
      have h21 : Nat.testBit 2 1 = true := by decide
      simp [Nat.testBit_or, h21]
    · exact ⟨reads.get ⟨k, hk⟩, hvmem, by simp [quirkApply]⟩
  · intro h
    exact ⟨reads.get ⟨k, hk⟩, hvmem, hnz', by simp [quirkApply, h]⟩

/-- Witness for C4: chip Axp202, channel 4, `Off`, reads `[9]`. -/
theorem C4_quirk_bit_witness :
    (∃ x ∈ [9], x ≠ 0) ∧
    ∃ w tr,
      set_power_output (State.Initialized ChipId.Axp202) 4 PowerState.Off
          [9] = (tr, SpoResult.done w) ∧
      (ChipId.Axp202 = ChipId.Axp202 → w.testBit 1 = true ∧
        ∃ v ∈ [9], w = railApply v 4 PowerState.Off ||| Power.DcDc3) ∧
      (ChipId.Axp202 ≠ ChipId.Axp202 → ∃ v ∈ [9], v ≠ 0 ∧
        w = railApply v 4 PowerState.Off) :=
  ⟨by decide,
   C4_quirk_bit ChipId.Axp202 4 PowerState.Off [9] (by decide)⟩


end Axp
